import Mathlib

/-!
Shallow embedding of the Airthings consumer-API client
(`src/client.ts`, class `AirthingsClient`).

The client is modelled as a pure state-passing interpreter.  Network
interaction is modelled by an environment `Env` that fixes what the
network answers to each kind of request the client can issue during one
public operation, together with the value of `Date.now()` during the
operation.  Every public operation returns an `Outcome`: the result (or
the thrown `AirthingsError`), the client state after the call (JS field
mutations performed before a throw persist, so the state is returned on
the error path too), and the list of HTTP requests the operation issued,
in order.
-/

namespace Airthings

/-- Parsed JSON body of a successful token-exchange response
(`access_token`, `token_type`, `expires_in`). -/
structure TokenData where
  access_token : String
  token_type : String
  expires_in : Int
deriving DecidableEq

/-- The cached access token (`AirthingsClientAccessToken`): token string,
scheme, and absolute expiry in epoch milliseconds. -/
structure AccessToken where
  token : String
  type : String
  expires : Int
deriving DecidableEq

/-- An account as returned by the accounts endpoint. -/
structure Account where
  id : String
deriving DecidableEq

/-- Client options (`AirthingsClientOpts`).  `accountId` is optional in
TypeScript; `none` models `undefined`. -/
structure AirthingsClientOpts where
  accountId : Option String
  clientId : String
  clientSecret : String
deriving DecidableEq

/-- Rate-limit metrics (`SensorResultsRateLimitMetrics`).  Each field is a
JS number produced by `parseInt`, hence either an integer or `NaN`;
`none` models `NaN`. -/
structure SensorResultsRateLimitMetrics where
  limit : Option Int
  remaining : Option Int
  reset : Option Int
deriving DecidableEq

/-- An HTTP response as the client observes it: status code, body text,
and headers. -/
structure FetchResponse where
  status : Nat
  bodyText : String
  headers : List (String × String)
deriving DecidableEq

/-- The `ok` property of a fetch response: status in the range 200-299. -/
def FetchResponse.ok (r : FetchResponse) : Bool :=
  200 ≤ r.status && r.status < 300

/-- Header lookup (`response.headers.get(name)`), `none` when absent. -/
def headersGet (hs : List (String × String)) (name : String) : Option String :=
  (hs.find? (fun p => p.1 == name)).map (fun p => p.2)

/-- Mutable state of an `AirthingsClient` instance: the cached access
token, the options object (whose `accountId` field is mutated in place on
resolution), and the rate-limit metrics. -/
structure ClientState where
  accessToken : Option AccessToken
  opts : AirthingsClientOpts
  rateLimitMetrics : SensorResultsRateLimitMetrics
deriving DecidableEq

/-- The constructor `new AirthingsClient(opts)`. -/
def mkClient (opts : AirthingsClientOpts) : ClientState :=
  { accessToken := none
    opts := opts
    rateLimitMetrics := { limit := some (-1), remaining := some (-1), reset := some (-1) } }

/-- The single error class thrown by the client
(`class AirthingsError extends Error`), carrying only a message. -/
structure AirthingsError where
  message : String
deriving DecidableEq

/-- An HTTP request issued by the client: the token-exchange POST (with
the Basic credentials it was built from) or a GET with its URL and
Authorization header. -/
inductive Request where
  | tokenExchange (clientId clientSecret : String)
  | get (url : String) (authHeader : String)
deriving DecidableEq

/-- The network environment of one public operation: `Date.now()`, the
token-endpoint response and its parsed body, the accounts-endpoint
response and its parsed body, and the response of the data endpoint the
operation targets. -/
structure Env where
  now : Int
  tokenResp : FetchResponse
  tokenData : TokenData
  accountsResp : FetchResponse
  accountsData : List Account
  dataResp : FetchResponse

/-- Result of running one operation: the returned value or thrown error,
the client state afterwards, and the requests issued in order. -/
structure Outcome (α : Type) where
  result : Except AirthingsError α
  state : ClientState
  trace : List Request

/-- JS truthiness of an optional string: `undefined` and the empty string
are falsy. -/
def strTruthy : Option String → Bool
  | none => false
  | some s => s != ""

/-- JS string interpolation of an optional string
(template literals print `undefined` for a missing value). -/
def jsInterpOptString : Option String → String
  | none => "undefined"
  | some s => s

/-- JS `a || b` on an optional string: `undefined` and `""` fall through
to the default. -/
def jsOrDefault (v : Option String) (d : String) : String :=
  match v with
  | some s => if s == "" then d else s
  | none => d

/-- Numeric value of a decimal digit character. -/
def charDigit (c : Char) : Nat := c.toNat - 48

/-- Value of a list of decimal digit characters. -/
def natFromDecDigits (cs : List Char) : Nat :=
  cs.foldl (fun a c => a * 10 + charDigit c) 0

/-- Whether a character is a hexadecimal digit. -/
def isHexDigitChar (c : Char) : Bool :=
  c.isDigit || (97 ≤ c.toLower.toNat && c.toLower.toNat ≤ 102)

/-- Numeric value of a hexadecimal digit character. -/
def hexVal (c : Char) : Nat :=
  if c.isDigit then c.toNat - 48 else c.toLower.toNat - 87

/-- Value of a list of hexadecimal digit characters. -/
def natFromHexDigits (cs : List Char) : Nat :=
  cs.foldl (fun a c => a * 16 + hexVal c) 0

/-- Unsigned part of JS `parseInt` with no radix argument: a leading
`0x`/`0X` selects base 16, otherwise the longest prefix of decimal digits
is read; no digits at all gives `NaN` (`none`). -/
def parseUnsigned (cs : List Char) : Option Nat :=
  match cs with
  | '0' :: x :: rest =>
    if x == 'x' || x == 'X' then
      let ds := rest.takeWhile isHexDigitChar
      if ds.isEmpty then none else some (natFromHexDigits ds)
    else
      let ds := ('0' :: x :: rest).takeWhile Char.isDigit
      if ds.isEmpty then none else some (natFromDecDigits ds)
  | _ =>
    let ds := cs.takeWhile Char.isDigit
    if ds.isEmpty then none else some (natFromDecDigits ds)

/-- Leading and trailing whitespace removal, as JS `parseInt` applies to
its argument before parsing. -/
def trimChars (cs : List Char) : List Char :=
  ((cs.dropWhile Char.isWhitespace).reverse.dropWhile Char.isWhitespace).reverse

/-- JS `parseInt(s)` (no radix argument): trim whitespace, optional sign,
then the unsigned parse; `none` models `NaN`. -/
def jsParseInt (s : String) : Option Int :=
  match trimChars s.data with
  | '-' :: rest => (parseUnsigned rest).map (fun n => -(n : Int))
  | '+' :: rest => (parseUnsigned rest).map (fun n => (n : Int))
  | cs => (parseUnsigned cs).map (fun n => (n : Int))

/-- The fixed token-exchange URL. -/
def tokenUrl : String := "https://accounts-api.airthings.com/v1/token"

/-- The fixed accounts-listing URL. -/
def accountsUrl : String := "https://consumer-api.airthings.com/v1/accounts"

/-- The devices URL for a given (optional) account id. -/
def devicesUrl (accountId : Option String) : String :=
  "https://consumer-api.airthings.com/v1/accounts/" ++ jsInterpOptString accountId ++ "/devices"

/-- The sensor-unit enum (`enum SensorUnits \x7b Metric, Imperial \x7d`). -/
inductive SensorUnits where
  | Metric
  | Imperial
deriving DecidableEq

/-- Reverse mapping of the numeric enum: `SensorUnits[unit]` yields the
member name. -/
def SensorUnits.name : SensorUnits → String
  | .Metric => "Metric"
  | .Imperial => "Imperial"

/-- JS `String.prototype.toLowerCase()` on the ASCII enum names. -/
def jsToLowerCase (s : String) : String := ⟨s.data.map Char.toLower⟩

/-- The sensors URL for an (optional) account id, unit and optional
serial-number filter, as built by `getSensors`: the `sn` parameter is
appended only when the array is given and non-empty, comma-joined. -/
def sensorsUrl (accountId : Option String) (unit : SensorUnits) (sn : Option (List String)) :
    String :=
  let base := "https://consumer-api.airthings.com/v1/accounts/" ++ jsInterpOptString accountId
    ++ "/sensors?unit=" ++ jsToLowerCase unit.name
  match sn with
  | some l => if l.length > 0 then base ++ "&sn=" ++ String.intercalate "," l else base
  | none => base

/-- Message of the error thrown by `#handleFetchResponseError` for a
non-ok response. -/
def requestErrorMessage (r : FetchResponse) : String :=
  "Request Error [" ++ toString r.status ++ ": " ++ r.bodyText ++ "]"

/-- The token object stored by a successful exchange:
`expires = expires_in * 1000 + Date.now()`. -/
def newToken (env : Env) : AccessToken :=
  ⟨env.tokenData.access_token, env.tokenData.token_type,
    env.tokenData.expires_in * 1000 + env.now⟩

/-- The Authorization header sent with every data request. -/
def authHeaderOf (tok : AccessToken) : String :=
  tok.type ++ " " ++ tok.token

/-- The token-exchange half of `#refreshAccessToken`: POST to the token
endpoint; on a non-ok response throw via `#handleFetchResponseError`
without touching the cached token; on success replace the cached token
wholesale with expiry `expires_in * 1000 + Date.now()`. -/
def refreshExchange (env : Env) (st : ClientState) : Outcome Unit :=
  if env.tokenResp.ok then
    { result := Except.ok ()
      state := { st with accessToken := some (newToken env) }
      trace := [Request.tokenExchange st.opts.clientId st.opts.clientSecret] }
  else
    { result := Except.error ⟨requestErrorMessage env.tokenResp⟩
      state := st
      trace := [Request.tokenExchange st.opts.clientId st.opts.clientSecret] }

/-- `#refreshAccessToken`: return immediately when a token is cached and
`expires - 5 * 60 * 1000 > Date.now()`, otherwise perform the exchange. -/
def refreshAccessToken (env : Env) (st : ClientState) : Outcome Unit :=
  match st.accessToken with
  | some tok =>
    if tok.expires - 5 * 60 * 1000 > env.now then
      { result := Except.ok (), state := st, trace := [] }
    else refreshExchange env st
  | none => refreshExchange env st

/-- `#handleFetch`: refresh the token, throw `No Access Token` if none is
cached, issue the GET with the bearer Authorization header, and throw a
`Request Error` on a non-ok response.  `resp` is what the network answers
to this particular GET. -/
def handleFetch (env : Env) (resp : FetchResponse) (url : String) (st : ClientState) :
    Outcome FetchResponse :=
  let r := refreshAccessToken env st
  match r.result with
  | Except.error e => { result := Except.error e, state := r.state, trace := r.trace }
  | Except.ok _ =>
    match r.state.accessToken with
    | none =>
      { result := Except.error ⟨"No Access Token"⟩, state := r.state, trace := r.trace }
    | some tok =>
      let req := Request.get url (authHeaderOf tok)
      if resp.ok then
        { result := Except.ok resp, state := r.state, trace := r.trace ++ [req] }
      else
        { result := Except.error ⟨requestErrorMessage resp⟩
          state := r.state
          trace := r.trace ++ [req] }

/-- `getAccounts`: fetch the fixed accounts URL and parse the body. -/
def getAccounts (env : Env) (st : ClientState) : Outcome (List Account) :=
  let r := handleFetch env env.accountsResp accountsUrl st
  match r.result with
  | Except.error e => { result := Except.error e, state := r.state, trace := r.trace }
  | Except.ok _ => { result := Except.ok env.accountsData, state := r.state, trace := r.trace }

/-- `#ensureAccountIdConfig`: when `opts.accountId` is falsy, list the
accounts; a non-empty list stores the first account id into
`opts.accountId`, an empty list throws `No Account ID`. -/
def ensureAccountIdConfig (env : Env) (st : ClientState) : Outcome Unit :=
  if strTruthy st.opts.accountId then
    { result := Except.ok (), state := st, trace := [] }
  else
    let r := getAccounts env st
    match r.result with
    | Except.error e => { result := Except.error e, state := r.state, trace := r.trace }
    | Except.ok accounts =>
      match accounts with
      | a :: _ =>
        { result := Except.ok ()
          state := { r.state with opts := { r.state.opts with accountId := some a.id } }
          trace := r.trace }
      | [] =>
        { result := Except.error ⟨"No Account ID"⟩, state := r.state, trace := r.trace }

/-- `getDevices`: ensure the account id, then fetch the devices URL.  The
parsed device list is not modelled (no claim inspects it). -/
def getDevices (env : Env) (st : ClientState) : Outcome Unit :=
  let r := ensureAccountIdConfig env st
  match r.result with
  | Except.error e => { result := Except.error e, state := r.state, trace := r.trace }
  | Except.ok _ =>
    let r2 := handleFetch env env.dataResp (devicesUrl r.state.opts.accountId) r.state
    match r2.result with
    | Except.error e => { result := Except.error e, state := r2.state, trace := r.trace ++ r2.trace }
    | Except.ok _ => { result := Except.ok (), state := r2.state, trace := r.trace ++ r2.trace }

/-- The value stored into one rate-limit field by `getSensors`:
`parseInt(response.headers.get(name) || "-1")`. -/
def rateLimitHeaderValue (resp : FetchResponse) (name : String) : Option Int :=
  jsParseInt (jsOrDefault (headersGet resp.headers name) "-1")

/-- `getSensors`: ensure the account id, build the sensors URL from the
unit and optional serial filter, fetch it, and on success overwrite all
three rate-limit metrics from the response headers. -/
def getSensors (unit : SensorUnits) (sn : Option (List String)) (env : Env) (st : ClientState) :
    Outcome Unit :=
  let r := ensureAccountIdConfig env st
  match r.result with
  | Except.error e => { result := Except.error e, state := r.state, trace := r.trace }
  | Except.ok _ =>
    let r2 := handleFetch env env.dataResp (sensorsUrl r.state.opts.accountId unit sn) r.state
    match r2.result with
    | Except.error e => { result := Except.error e, state := r2.state, trace := r.trace ++ r2.trace }
    | Except.ok resp =>
      { result := Except.ok ()
        state := { r2.state with rateLimitMetrics :=
          { limit := rateLimitHeaderValue resp "X-RateLimit-Limit"
            remaining := rateLimitHeaderValue resp "X-RateLimit-Remaining"
            reset := rateLimitHeaderValue resp "X-RateLimit-Reset" } }
        trace := r.trace ++ r2.trace }

/-- `getSensorsRateLimitMetrics`: read the stored metrics. -/
def getSensorsRateLimitMetrics (st : ClientState) : SensorResultsRateLimitMetrics :=
  st.rateLimitMetrics

/-- Number of token-exchange requests in a trace. -/
def exchangeCount (t : List Request) : Nat :=
  (t.filter fun r => match r with
    | Request.tokenExchange _ _ => true
    | _ => false).length

/-- Whether a request is a GET of the accounts-listing URL. -/
def isAccountsGet : Request → Bool
  | Request.get u _ => u == accountsUrl
  | _ => false

/-- The refresh guard fails for every cached token: either no token is
cached or the cached one is at or past expiry minus the margin, so
`#refreshAccessToken` will attempt an exchange. -/
def needsRefresh (st : ClientState) (now : Int) : Prop :=
  ∀ tok, st.accessToken = some tok → ¬ tok.expires - 5 * 60 * 1000 > now

instance (st : ClientState) (now : Int) : Decidable (needsRefresh st now) := by
  unfold needsRefresh
  cases st.accessToken with
  | none => exact isTrue (by intro tok h; cases h)
  | some tok =>
    by_cases hf : tok.expires - 5 * 60 * 1000 > now
    · exact isFalse (by intro h; exact h tok rfl hf)
    · exact isTrue (by intro tok2 h2; cases h2; exact hf)

end Airthings

namespace Airthings

/-! Concrete fixtures used to instantiate the theorems on closed inputs. -/

/-- A generic successful HTTP response. -/
def respOk : FetchResponse := { status := 200, bodyText := "", headers := [] }

/-- A failing HTTP response with status 500 and body text `oops`. -/
def respFail : FetchResponse := { status := 500, bodyText := "oops", headers := [] }

/-- Token data `tok1` with scheme `Bearer` and one hour of validity. -/
def tokData1 : TokenData :=
  { access_token := "tok1", token_type := "Bearer", expires_in := 3600 }

/-- Options with no account override. -/
def optsNoAccount : AirthingsClientOpts :=
  { accountId := none, clientId := "cid", clientSecret := "sec" }

/-- Options with the account override `acct-1`. -/
def optsAccount1 : AirthingsClientOpts :=
  { accountId := some "acct-1", clientId := "cid", clientSecret := "sec" }

/-- A baseline environment where every request succeeds. -/
def envBase : Env :=
  { now := 1000000
    tokenResp := respOk
    tokenData := tokData1
    accountsResp := respOk
    accountsData := [⟨"acct-1"⟩]
    dataResp := respOk }

/-- A cached token valid far beyond `envBase.now`. -/
def tokFresh : AccessToken := { token := "tok0", type := "Bearer", expires := 100000000 }

/-- Client state with a fresh token and a resolved account id. -/
def stReady : ClientState :=
  { accessToken := some tokFresh
    opts := optsAccount1
    rateLimitMetrics := { limit := some (-1), remaining := some (-1), reset := some (-1) } }

/-- Client state as after construction with no account override. -/
def stNew : ClientState := mkClient optsNoAccount

/-- A 401 response from the token endpoint. -/
def respAuthFail : FetchResponse := { status := 401, bodyText := "bad client", headers := [] }

/-- Environment whose token exchange fails with `respAuthFail`. -/
def envTokenFail : Env := { envBase with tokenResp := respAuthFail }

/-- Environment whose accounts listing is empty. -/
def envEmptyAccounts : Env := { envBase with accountsData := [] }

/-- Environment whose data endpoint fails with `respFail`. -/
def envDataFail : Env := { envBase with dataResp := respFail }

/-- Environment whose first account has the empty string as its id. -/
def envEmptyId : Env := { envBase with accountsData := [⟨""⟩] }

/-- Environment whose accounts listing returns the id `acct-2`. -/
def envAcct2 : Env := { envBase with accountsData := [⟨"acct-2"⟩] }

/-- A successful sensors response carrying an unparseable rate-limit
header. -/
def respBadLimit : FetchResponse :=
  { status := 200, bodyText := "", headers := [("X-RateLimit-Limit", "abc")] }

/-- Environment whose sensors response carries the unparseable header. -/
def envBadLimit : Env := { envBase with dataResp := respBadLimit }

/-- A successful sensors response with limit and remaining headers and no
reset header. -/
def respLimits : FetchResponse :=
  { status := 200
    bodyText := ""
    headers := [("X-RateLimit-Limit", "100"), ("X-RateLimit-Remaining", "99")] }

/-- Environment whose sensors response carries `respLimits`. -/
def envLimits : Env := { envBase with dataResp := respLimits }

/-- A 401 response with body `x`. -/
def resp401x : FetchResponse := { status := 401, bodyText := "x", headers := [] }

/-- Environment whose accounts listing fails with `resp401x`. -/
def envAccountsFail : Env := { envBase with accountsResp := resp401x }

/-- Environment whose token exchange fails with `resp401x`. -/
def envTokenFail401 : Env := { envBase with tokenResp := resp401x }

end Airthings

namespace Airthings

/-! Helper lemmas about the refresh path, shared by several claims. -/

theorem refreshExchange_trace (env : Env) (st : ClientState) :
    (refreshExchange env st).trace =
      [Request.tokenExchange st.opts.clientId st.opts.clientSecret] := by
  unfold refreshExchange; split <;> rfl

theorem refreshExchange_ok (env : Env) (st : ClientState) (h : env.tokenResp.ok = true) :
    refreshExchange env st =
      { result := Except.ok ()
        state := { st with accessToken := some (newToken env) }
        trace := [Request.tokenExchange st.opts.clientId st.opts.clientSecret] } := by
  unfold refreshExchange; rw [h]; rfl

theorem refreshExchange_fail (env : Env) (st : ClientState) (h : env.tokenResp.ok = false) :
    refreshExchange env st =
      { result := Except.error ⟨requestErrorMessage env.tokenResp⟩
        state := st
        trace := [Request.tokenExchange st.opts.clientId st.opts.clientSecret] } := by
  unfold refreshExchange; rw [h]; rfl

theorem refreshAccessToken_none (env : Env) (st : ClientState) (h : st.accessToken = none) :
    refreshAccessToken env st = refreshExchange env st := by
  unfold refreshAccessToken; rw [h]

theorem refreshAccessToken_some (env : Env) (st : ClientState) (tok : AccessToken)
    (h : st.accessToken = some tok) :
    refreshAccessToken env st =
      if tok.expires - 5 * 60 * 1000 > env.now then
        { result := Except.ok (), state := st, trace := [] }
      else refreshExchange env st := by
  unfold refreshAccessToken; rw [h]

theorem refreshAccessToken_fresh (env : Env) (st : ClientState) (tok : AccessToken)
    (h : st.accessToken = some tok) (hf : tok.expires - 5 * 60 * 1000 > env.now) :
    refreshAccessToken env st = { result := Except.ok (), state := st, trace := [] } := by
  rw [refreshAccessToken_some env st tok h, if_pos hf]

theorem refreshAccessToken_stale (env : Env) (st : ClientState) (tok : AccessToken)
    (h : st.accessToken = some tok) (hf : ¬ tok.expires - 5 * 60 * 1000 > env.now) :
    refreshAccessToken env st = refreshExchange env st := by
  rw [refreshAccessToken_some env st tok h, if_neg hf]

end Airthings

namespace Airthings

theorem exchangeCount_nil : exchangeCount [] = 0 := rfl

theorem exchangeCount_single (c s : String) :
    exchangeCount [Request.tokenExchange c s] = 1 := rfl

theorem refresh_exchangeCount_le_one (env : Env) (st : ClientState) :
    exchangeCount (refreshAccessToken env st).trace ≤ 1 := by
  cases h : st.accessToken with
  | none =>
    rw [refreshAccessToken_none env st h, refreshExchange_trace, exchangeCount_single]
  | some tok =>
    by_cases hf : tok.expires - 5 * 60 * 1000 > env.now
    · rw [refreshAccessToken_fresh env st tok h hf]
      simp [exchangeCount]
    · rw [refreshAccessToken_stale env st tok h hf, refreshExchange_trace, exchangeCount_single]

/-- C1: `#refreshAccessToken` performs a token exchange iff no token is
cached or the current time has reached the cached expiry minus the fixed
5-minute margin (`now ≥ expires - margin`); a cached token with
`expires - margin > now` makes the call issue no request and leave the
client state unchanged; and when the first of two consecutive calls ends
with a cached token that is still fresh at the second call's time, the
two calls together issue at most one token exchange. -/
theorem c1_refresh_exchange_iff (env env2 : Env) (st : ClientState) :
    (0 < exchangeCount (refreshAccessToken env st).trace ↔
      st.accessToken = none ∨
        ∃ tok, st.accessToken = some tok ∧ env.now ≥ tok.expires - 5 * 60 * 1000) ∧
    (∀ tok, st.accessToken = some tok → tok.expires - 5 * 60 * 1000 > env.now →
      (refreshAccessToken env st).trace = [] ∧ (refreshAccessToken env st).state = st) ∧
    ((∃ tok, (refreshAccessToken env st).state.accessToken = some tok ∧
        tok.expires - 5 * 60 * 1000 > env2.now) →
      exchangeCount (refreshAccessToken env st).trace +
        exchangeCount (refreshAccessToken env2 (refreshAccessToken env st).state).trace ≤ 1) := by
  refine ⟨?_, ?_, ?_⟩
  · cases h : st.accessToken with
    | none =>
      rw [refreshAccessToken_none env st h, refreshExchange_trace, exchangeCount_single]
      simp
    | some tok =>
      by_cases hf : tok.expires - 5 * 60 * 1000 > env.now
      · rw [refreshAccessToken_fresh env st tok h hf]
        rw [show ({ result := Except.ok (), state := st, trace := [] } :
          Outcome Unit).trace = [] from rfl, exchangeCount_nil]
        simp [h]
        omega
      · rw [refreshAccessToken_stale env st tok h hf, refreshExchange_trace, exchangeCount_single]
        simp [h]
        omega
  · intro tok h hf
    rw [refreshAccessToken_fresh env st tok h hf]
    exact ⟨rfl, rfl⟩
  · rintro ⟨tok, htok, hf⟩
    rw [refreshAccessToken_fresh env2 _ tok htok hf]
    simpa [exchangeCount] using refresh_exchangeCount_le_one env st

/-- Witness for C1: at the concrete fresh state `stReady`, the call is a
no-op. -/
theorem c1_refresh_exchange_iff_witness :
    (refreshAccessToken envBase stReady).trace = [] ∧
      (refreshAccessToken envBase stReady).state = stReady :=
  (c1_refresh_exchange_iff envBase envBase stReady).2.1 tokFresh rfl (by decide)

end Airthings

namespace Airthings

theorem refreshAccessToken_needs (env : Env) (st : ClientState)
    (h : needsRefresh st env.now) :
    refreshAccessToken env st = refreshExchange env st := by
  cases ha : st.accessToken with
  | none => exact refreshAccessToken_none env st ha
  | some tok => exact refreshAccessToken_stale env st tok ha (h tok ha)

/-- `#handleFetch` under a cached fresh token: no exchange, one GET. -/
theorem handleFetch_fresh (env : Env) (resp : FetchResponse) (url : String)
    (st : ClientState) (tok : AccessToken) (h : st.accessToken = some tok)
    (hf : tok.expires - 5 * 60 * 1000 > env.now) :
    handleFetch env resp url st =
      if resp.ok then
        { result := Except.ok resp, state := st
          trace := [Request.get url (authHeaderOf tok)] }
      else
        { result := Except.error ⟨requestErrorMessage resp⟩, state := st
          trace := [Request.get url (authHeaderOf tok)] } := by
  unfold handleFetch
  rw [refreshAccessToken_fresh env st tok h hf]
  simp only [h]
  split <;> rfl

/-- `#handleFetch` when a refresh is needed and the exchange succeeds:
one exchange storing the new token, then one GET. -/
theorem handleFetch_exchangeOk (env : Env) (resp : FetchResponse) (url : String)
    (st : ClientState) (h : needsRefresh st env.now) (hok : env.tokenResp.ok = true) :
    handleFetch env resp url st =
      if resp.ok then
        { result := Except.ok resp
          state := { st with accessToken := some (newToken env) }
          trace := [Request.tokenExchange st.opts.clientId st.opts.clientSecret,
            Request.get url (authHeaderOf (newToken env))] }
      else
        { result := Except.error ⟨requestErrorMessage resp⟩
          state := { st with accessToken := some (newToken env) }
          trace := [Request.tokenExchange st.opts.clientId st.opts.clientSecret,
            Request.get url (authHeaderOf (newToken env))] } := by
  unfold handleFetch
  rw [refreshAccessToken_needs env st h, refreshExchange_ok env st hok]
  split <;> rfl

/-- `#handleFetch` when a refresh is needed and the exchange fails: the
error propagates, the state is untouched, and no GET is issued. -/
theorem handleFetch_exchangeFail (env : Env) (resp : FetchResponse) (url : String)
    (st : ClientState) (h : needsRefresh st env.now) (hko : env.tokenResp.ok = false) :
    handleFetch env resp url st =
      { result := Except.error ⟨requestErrorMessage env.tokenResp⟩
        state := st
        trace := [Request.tokenExchange st.opts.clientId st.opts.clientSecret] } := by
  unfold handleFetch
  rw [refreshAccessToken_needs env st h, refreshExchange_fail env st hko]

end Airthings

namespace Airthings

/-- `getAccounts` when a needed token exchange fails. -/
theorem getAccounts_exchangeFail (env : Env) (st : ClientState)
    (h : needsRefresh st env.now) (hko : env.tokenResp.ok = false) :
    getAccounts env st =
      { result := Except.error ⟨requestErrorMessage env.tokenResp⟩
        state := st
        trace := [Request.tokenExchange st.opts.clientId st.opts.clientSecret] } := by
  unfold getAccounts
  rw [handleFetch_exchangeFail env env.accountsResp accountsUrl st h hko]

/-- `#ensureAccountIdConfig` is a no-op for a truthy account id. -/
theorem ensureAccountIdConfig_truthy (env : Env) (st : ClientState)
    (ht : strTruthy st.opts.accountId = true) :
    ensureAccountIdConfig env st = { result := Except.ok (), state := st, trace := [] } := by
  unfold ensureAccountIdConfig
  simp [ht]

/-- `#ensureAccountIdConfig` when resolution is needed but the token
exchange fails. -/
theorem ensureAccountIdConfig_exchangeFail (env : Env) (st : ClientState)
    (hnt : strTruthy st.opts.accountId = false)
    (h : needsRefresh st env.now) (hko : env.tokenResp.ok = false) :
    ensureAccountIdConfig env st =
      { result := Except.error ⟨requestErrorMessage env.tokenResp⟩
        state := st
        trace := [Request.tokenExchange st.opts.clientId st.opts.clientSecret] } := by
  unfold ensureAccountIdConfig
  simp only [hnt, Bool.false_eq_true, if_false]
  rw [getAccounts_exchangeFail env st h hko]

end Airthings

namespace Airthings

/-- `getDevices` when a needed token exchange fails. -/
theorem getDevices_exchangeFail (env : Env) (st : ClientState)
    (h : needsRefresh st env.now) (hko : env.tokenResp.ok = false) :
    getDevices env st =
      { result := Except.error ⟨requestErrorMessage env.tokenResp⟩
        state := st
        trace := [Request.tokenExchange st.opts.clientId st.opts.clientSecret] } := by
  unfold getDevices
  cases ht : strTruthy st.opts.accountId with
  | true =>
    simp only [ensureAccountIdConfig_truthy env st ht,
      handleFetch_exchangeFail env env.dataResp (devicesUrl st.opts.accountId) st h hko,
      List.nil_append]
  | false =>
    simp only [ensureAccountIdConfig_exchangeFail env st ht h hko]

/-- `getSensors` when a needed token exchange fails. -/
theorem getSensors_exchangeFail (unit : SensorUnits) (sn : Option (List String))
    (env : Env) (st : ClientState)
    (h : needsRefresh st env.now) (hko : env.tokenResp.ok = false) :
    getSensors unit sn env st =
      { result := Except.error ⟨requestErrorMessage env.tokenResp⟩
        state := st
        trace := [Request.tokenExchange st.opts.clientId st.opts.clientSecret] } := by
  unfold getSensors
  cases ht : strTruthy st.opts.accountId with
  | true =>
    simp only [ensureAccountIdConfig_truthy env st ht,
      handleFetch_exchangeFail env env.dataResp (sensorsUrl st.opts.accountId unit sn) st h hko,
      List.nil_append]
  | false =>
    simp only [ensureAccountIdConfig_exchangeFail env st ht h hko]

end Airthings

namespace Airthings

/-- C4: when a token exchange is attempted (no cached token, or the
cached one at or past expiry minus the margin) and the token endpoint
answers a non-success status, every public operation fails with the
error carrying that status code and body text, and the entire client
state — in particular the previously cached token — is left untouched,
so a later call can retry the exchange. -/
theorem c4_token_exchange_failure (env : Env) (st : ClientState) (unit : SensorUnits)
    (sn : Option (List String)) (h : needsRefresh st env.now)
    (hko : env.tokenResp.ok = false) :
    (getAccounts env st).result = Except.error ⟨"Request Error [" ++
      toString env.tokenResp.status ++ ": " ++ env.tokenResp.bodyText ++ "]"⟩ ∧
    (getAccounts env st).state = st ∧
    (getDevices env st).result = Except.error ⟨"Request Error [" ++
      toString env.tokenResp.status ++ ": " ++ env.tokenResp.bodyText ++ "]"⟩ ∧
    (getDevices env st).state = st ∧
    (getSensors unit sn env st).result = Except.error ⟨"Request Error [" ++
      toString env.tokenResp.status ++ ": " ++ env.tokenResp.bodyText ++ "]"⟩ ∧
    (getSensors unit sn env st).state = st := by
  refine ⟨?_, ?_, ?_, ?_, ?_, ?_⟩ <;>
    simp [getAccounts_exchangeFail env st h hko, getDevices_exchangeFail env st h hko,
      getSensors_exchangeFail unit sn env st h hko, requestErrorMessage]

/-- Witness for C4 at a fresh client and a 401 from the token endpoint. -/
theorem c4_token_exchange_failure_witness :
    (getAccounts envTokenFail stNew).result = Except.error ⟨"Request Error [" ++
      toString envTokenFail.tokenResp.status ++ ": " ++ envTokenFail.tokenResp.bodyText ++ "]"⟩ ∧
    (getAccounts envTokenFail stNew).state = stNew ∧
    (getDevices envTokenFail stNew).result = Except.error ⟨"Request Error [" ++
      toString envTokenFail.tokenResp.status ++ ": " ++ envTokenFail.tokenResp.bodyText ++ "]"⟩ ∧
    (getDevices envTokenFail stNew).state = stNew ∧
    (getSensors SensorUnits.Metric none envTokenFail stNew).result = Except.error ⟨"Request Error [" ++
      toString envTokenFail.tokenResp.status ++ ": " ++ envTokenFail.tokenResp.bodyText ++ "]"⟩ ∧
    (getSensors SensorUnits.Metric none envTokenFail stNew).state = stNew :=
  c4_token_exchange_failure envTokenFail stNew SensorUnits.Metric none
    (by decide) (by decide)

end Airthings

namespace Airthings

theorem ClientState.update_token_self (st : ClientState) (tok : AccessToken)
    (h : st.accessToken = some tok) :
    { st with accessToken := some tok } = st := by
  cases st
  simp only at h
  subst h
  rfl

theorem refreshAccessToken_state_opts (env : Env) (st : ClientState) :
    (refreshAccessToken env st).state.opts = st.opts := by
  simp only [refreshAccessToken, refreshExchange]
  repeat' split
  all_goals rfl

theorem refreshAccessToken_state_metrics (env : Env) (st : ClientState) :
    (refreshAccessToken env st).state.rateLimitMetrics = st.rateLimitMetrics := by
  simp only [refreshAccessToken, refreshExchange]
  repeat' split
  all_goals rfl

theorem handleFetch_state (env : Env) (resp : FetchResponse) (url : String)
    (st : ClientState) :
    (handleFetch env resp url st).state = (refreshAccessToken env st).state := by
  simp only [handleFetch]
  repeat' split
  all_goals rfl

/-- `#handleFetch` whenever a bearer token is obtainable (cached fresh or
successfully exchanged): some prefix of token-exchange requests, then the
GET; the state keeps its options and metrics and holds the bearer token
used. -/
theorem handleFetch_tokenOk (env : Env) (resp : FetchResponse) (url : String)
    (st : ClientState)
    (htok : env.tokenResp.ok = true ∨
      ∃ tok, st.accessToken = some tok ∧ tok.expires - 5 * 60 * 1000 > env.now) :
    ∃ tok pre, (∀ r ∈ pre, ∃ c s, r = Request.tokenExchange c s) ∧
      handleFetch env resp url st =
        if resp.ok then
          { result := Except.ok resp
            state := { st with accessToken := some tok }
            trace := pre ++ [Request.get url (authHeaderOf tok)] }
        else
          { result := Except.error ⟨requestErrorMessage resp⟩
            state := { st with accessToken := some tok }
            trace := pre ++ [Request.get url (authHeaderOf tok)] } := by
  by_cases hfresh : ∃ tok, st.accessToken = some tok ∧ tok.expires - 5 * 60 * 1000 > env.now
  · obtain ⟨tok, h, hf⟩ := hfresh
    refine ⟨tok, [], by simp, ?_⟩
    rw [handleFetch_fresh env resp url st tok h hf, ClientState.update_token_self st tok h]
    simp
  · have hok : env.tokenResp.ok = true := by
      rcases htok with hok | hfr
      · exact hok
      · exact absurd hfr hfresh
    have hneeds : needsRefresh st env.now := by
      intro tok h hf
      exact hfresh ⟨tok, h, hf⟩
    refine ⟨newToken env, [Request.tokenExchange st.opts.clientId st.opts.clientSecret],
      ?_, ?_⟩
    · intro r hr
      simp only [List.mem_singleton] at hr
      subst hr
      exact ⟨_, _, rfl⟩
    · rw [handleFetch_exchangeOk env resp url st hneeds hok]
      simp

end Airthings

namespace Airthings

theorem getAccounts_state (env : Env) (st : ClientState) :
    (getAccounts env st).state = (handleFetch env env.accountsResp accountsUrl st).state := by
  simp only [getAccounts]
  repeat' split
  all_goals rfl

theorem handleFetch_ok_inv (env : Env) (resp : FetchResponse) (url : String)
    (st : ClientState) (x : FetchResponse)
    (h : (handleFetch env resp url st).result = Except.ok x) :
    resp.ok = true ∧ x = resp := by
  simp only [handleFetch] at h
  split at h
  · cases h
  · split at h
    · cases h
    · split at h
      · cases h
        exact ⟨by assumption, rfl⟩
      · cases h

/-- `getAccounts` when a bearer token is obtainable and the accounts
endpoint answers ok. -/
theorem getAccounts_tokenOk (env : Env) (st : ClientState)
    (htok : env.tokenResp.ok = true ∨
      ∃ tok, st.accessToken = some tok ∧ tok.expires - 5 * 60 * 1000 > env.now)
    (haok : env.accountsResp.ok = true) :
    ∃ tok pre, (∀ r ∈ pre, ∃ c s, r = Request.tokenExchange c s) ∧
      getAccounts env st =
        { result := Except.ok env.accountsData
          state := { st with accessToken := some tok }
          trace := pre ++ [Request.get accountsUrl (authHeaderOf tok)] } := by
  obtain ⟨tok, pre, hpre, heq⟩ := handleFetch_tokenOk env env.accountsResp accountsUrl st htok
  refine ⟨tok, pre, hpre, ?_⟩
  simp only [getAccounts, heq, haok, if_true]

/-- `#ensureAccountIdConfig` on the resolution path (falsy stored id,
token obtainable, accounts endpoint ok): an empty list throws
`No Account ID`, a non-empty list stores the first id. -/
theorem ensureAccountIdConfig_resolve (env : Env) (st : ClientState)
    (hnt : strTruthy st.opts.accountId = false)
    (htok : env.tokenResp.ok = true ∨
      ∃ tok, st.accessToken = some tok ∧ tok.expires - 5 * 60 * 1000 > env.now)
    (haok : env.accountsResp.ok = true) :
    ∃ tok pre, (∀ r ∈ pre, ∃ c s, r = Request.tokenExchange c s) ∧
      (env.accountsData = [] →
        ensureAccountIdConfig env st =
          { result := Except.error ⟨"No Account ID"⟩
            state := { st with accessToken := some tok }
            trace := pre ++ [Request.get accountsUrl (authHeaderOf tok)] }) ∧
      (∀ acc rest, env.accountsData = acc :: rest →
        ensureAccountIdConfig env st =
          { result := Except.ok ()
            state := { st with
              accessToken := some tok
              opts := { st.opts with accountId := some acc.id } }
            trace := pre ++ [Request.get accountsUrl (authHeaderOf tok)] }) := by
  obtain ⟨tok, pre, hpre, heq⟩ := getAccounts_tokenOk env st htok haok
  refine ⟨tok, pre, hpre, ?_, ?_⟩
  · intro hempty
    simp only [ensureAccountIdConfig, hnt, Bool.false_eq_true, if_false, heq, hempty]
  · intro acc rest hcons
    simp only [ensureAccountIdConfig, hnt, Bool.false_eq_true, if_false, heq, hcons]

end Airthings

namespace Airthings

theorem getDevices_opts (env : Env) (st : ClientState) :
    (getDevices env st).state.opts = (ensureAccountIdConfig env st).state.opts := by
  simp only [getDevices]
  split
  · rfl
  · split
    all_goals simp only [handleFetch_state, refreshAccessToken_state_opts]

theorem getSensors_opts (unit : SensorUnits) (sn : Option (List String))
    (env : Env) (st : ClientState) :
    (getSensors unit sn env st).state.opts = (ensureAccountIdConfig env st).state.opts := by
  simp only [getSensors]
  split
  · rfl
  · split
    all_goals simp only [handleFetch_state, refreshAccessToken_state_opts]

theorem ensureAccountIdConfig_metrics (env : Env) (st : ClientState) :
    (ensureAccountIdConfig env st).state.rateLimitMetrics = st.rateLimitMetrics := by
  simp only [ensureAccountIdConfig]
  split
  · rfl
  · split
    · simp only [getAccounts_state, handleFetch_state, refreshAccessToken_state_metrics]
    · split
      all_goals simp only [getAccounts_state, handleFetch_state,
        refreshAccessToken_state_metrics]

end Airthings

namespace Airthings

/-- C3: with no account override configured, when the accounts listing
succeeds with an empty list, `getDevices` and `getSensors` fail with the
`No Account ID` error (the spec's ConfigurationError) and only
token-exchange and accounts-listing requests are ever issued (the
devices/sensors call is never attempted); when the listing is non-empty,
the first account's id is persisted on the options object as the
resolved scope. -/
theorem c3_empty_accounts (env : Env) (st : ClientState) (unit : SensorUnits)
    (sn : Option (List String)) (hnt : strTruthy st.opts.accountId = false)
    (htok : env.tokenResp.ok = true ∨
      ∃ tok, st.accessToken = some tok ∧ tok.expires - 5 * 60 * 1000 > env.now)
    (haok : env.accountsResp.ok = true) :
    (env.accountsData = [] →
      (getDevices env st).result = Except.error ⟨"No Account ID"⟩ ∧
      (getSensors unit sn env st).result = Except.error ⟨"No Account ID"⟩ ∧
      (∀ r ∈ (getDevices env st).trace,
        (∃ c s, r = Request.tokenExchange c s) ∨ ∃ a, r = Request.get accountsUrl a) ∧
      (∀ r ∈ (getSensors unit sn env st).trace,
        (∃ c s, r = Request.tokenExchange c s) ∨ ∃ a, r = Request.get accountsUrl a)) ∧
    (∀ acc rest, env.accountsData = acc :: rest →
      (getDevices env st).state.opts.accountId = some acc.id ∧
      (getSensors unit sn env st).state.opts.accountId = some acc.id) := by
  obtain ⟨tok, pre, hpre, hemp, hcons⟩ := ensureAccountIdConfig_resolve env st hnt htok haok
  constructor
  · intro hempty
    have e := hemp hempty
    have tr : ∀ r ∈ pre ++ [Request.get accountsUrl (authHeaderOf tok)],
        (∃ c s, r = Request.tokenExchange c s) ∨ ∃ a, r = Request.get accountsUrl a := by
      intro r hr
      rcases List.mem_append.mp hr with h1 | h2
      · exact Or.inl (hpre r h1)
      · simp only [List.mem_singleton] at h2
        subst h2
        exact Or.inr ⟨_, rfl⟩
    refine ⟨?_, ?_, ?_, ?_⟩
    · simp only [getDevices, e]
    · simp only [getSensors, e]
    · simp only [getDevices, e]
      exact tr
    · simp only [getSensors, e]
      exact tr
  · intro acc rest hc
    have e := hcons acc rest hc
    constructor
    · rw [getDevices_opts]
      simp only [e]
    · rw [getSensors_opts]
      simp only [e]

/-- Witness for C3 at a fresh client whose accounts listing is empty. -/
theorem c3_empty_accounts_witness :
    (getDevices envEmptyAccounts stNew).result = Except.error ⟨"No Account ID"⟩ ∧
      (getSensors SensorUnits.Metric none envEmptyAccounts stNew).result =
        Except.error ⟨"No Account ID"⟩ := by
  have h := (c3_empty_accounts envEmptyAccounts stNew SensorUnits.Metric none
    (by decide) (Or.inl (by decide)) (by decide)).1 rfl
  exact ⟨h.1, h.2.1⟩

end Airthings

namespace Airthings

theorem sensorsUrl_imperial_sn (a : String) :
    sensorsUrl (some a) SensorUnits.Imperial (some ["111", "222"]) =
      "https://consumer-api.airthings.com/v1/accounts/" ++ a ++
        "/sensors?unit=imperial&sn=111,222" := by
  have step : sensorsUrl (some a) SensorUnits.Imperial (some ["111", "222"]) =
      ("https://consumer-api.airthings.com/v1/accounts/" ++ a ++ "/sensors?unit=" ++
        "imperial") ++ "&sn=" ++ "111,222" := rfl
  rw [step]
  simp only [String.append_assoc]
  congr 1

/-- C7: `getSensors` with the imperial unit and serial filter
`[111, 222]` issues a GET whose URL embeds the resolved account id and
whose query string carries `unit=imperial` (the enum name lower-cased)
and `sn=111,222` (the serials comma-joined). -/
theorem c7_sensors_query (env : Env) (st : ClientState) (a : String)
    (hid : st.opts.accountId = some a) (hne : a ≠ "")
    (htok : env.tokenResp.ok = true ∨
      ∃ tok, st.accessToken = some tok ∧ tok.expires - 5 * 60 * 1000 > env.now) :
    ∃ auth, Request.get ("https://consumer-api.airthings.com/v1/accounts/" ++ a ++
        "/sensors?unit=imperial&sn=111,222") auth ∈
      (getSensors SensorUnits.Imperial (some ["111", "222"]) env st).trace := by
  have ht : strTruthy st.opts.accountId = true := by
    rw [hid]
    simp [strTruthy, hne]
  obtain ⟨tok, pre, hpre, heq⟩ := handleFetch_tokenOk env env.dataResp
    (sensorsUrl st.opts.accountId SensorUnits.Imperial (some ["111", "222"])) st htok
  refine ⟨authHeaderOf tok, ?_⟩
  rw [← sensorsUrl_imperial_sn a, ← hid]
  cases hok : env.dataResp.ok with
  | true =>
    simp only [getSensors, ensureAccountIdConfig_truthy env st ht, heq, hok, if_true]
    simp
  | false =>
    simp only [getSensors, ensureAccountIdConfig_truthy env st ht, heq, hok,
      Bool.false_eq_true, if_false]
    simp

/-- Witness for C7 at the ready state with account id `acct-1`. -/
theorem c7_sensors_query_witness :
    ∃ auth, Request.get ("https://consumer-api.airthings.com/v1/accounts/" ++ "acct-1" ++
        "/sensors?unit=imperial&sn=111,222") auth ∈
      (getSensors SensorUnits.Imperial (some ["111", "222"]) envBase stReady).trace :=
  c7_sensors_query envBase stReady "acct-1" rfl (by decide) (Or.inl (by decide))

end Airthings

namespace Airthings

/-- C9: an empty serial-number array builds exactly the same sensors URL
as omitting the filter, and the whole `getSensors` call (result, state,
trace) is identical in the two cases. -/
theorem c9_empty_filter_identity :
    (∀ a u, sensorsUrl a u (some []) = sensorsUrl a u none) ∧
    (∀ (u : SensorUnits) (env : Env) (st : ClientState),
      getSensors u (some []) env st = getSensors u none env st) := by
  have hurl : ∀ a u, sensorsUrl a u (some []) = sensorsUrl a u none := by
    intro a u
    rfl
  refine ⟨hurl, ?_⟩
  intro u env st
  simp only [getSensors, hurl]

theorem getDevices_trace_prefix (env : Env) (st : ClientState) :
    ∀ r ∈ (ensureAccountIdConfig env st).trace, r ∈ (getDevices env st).trace := by
  simp only [getDevices]
  split
  · intro r hr
    exact hr
  · split
    · intro r hr
      exact List.mem_append_left _ hr
    · intro r hr
      exact List.mem_append_left _ hr

/-- C10: when the accounts listing returns a first account whose id is
the empty string, resolution stores that empty string, but the stored id
is falsy so the client still treats the account id as unresolved: the
next account-scoped call re-invokes the accounts endpoint. -/
theorem c10_empty_id_stays_unresolved (env env2 : Env) (st : ClientState)
    (rest : List Account) (hnt : strTruthy st.opts.accountId = false)
    (htok : env.tokenResp.ok = true) (haok : env.accountsResp.ok = true)
    (hid : env.accountsData = ⟨""⟩ :: rest)
    (htok2 : env2.tokenResp.ok = true) (haok2 : env2.accountsResp.ok = true) :
    (getDevices env st).state.opts.accountId = some "" ∧
    strTruthy (getDevices env st).state.opts.accountId = false ∧
    (∃ auth, Request.get accountsUrl auth ∈
      (getDevices env2 (getDevices env st).state).trace) := by
  obtain ⟨tok, pre, hpre, hemp, hcons⟩ :=
    ensureAccountIdConfig_resolve env st hnt (Or.inl htok) haok
  have e := hcons ⟨""⟩ rest hid
  have h1 : (getDevices env st).state.opts.accountId = some "" := by
    rw [getDevices_opts]
    simp only [e]
  refine ⟨h1, ?_, ?_⟩
  · rw [h1]
    rfl
  · have hnt2 : strTruthy (getDevices env st).state.opts.accountId = false := by
      rw [h1]
      rfl
    obtain ⟨tok2, pre2, hpre2, hemp2, hcons2⟩ :=
      ensureAccountIdConfig_resolve env2 (getDevices env st).state hnt2
        (Or.inl htok2) haok2
    have e2 : (ensureAccountIdConfig env2 (getDevices env st).state).trace =
        pre2 ++ [Request.get accountsUrl (authHeaderOf tok2)] := by
      cases hd : env2.accountsData with
      | nil =>
        rw [hemp2 hd]
      | cons acc rest2 =>
        rw [hcons2 acc rest2 hd]
    refine ⟨authHeaderOf tok2, ?_⟩
    apply getDevices_trace_prefix
    rw [e2]
    simp

/-- Witness for C10: first account id empty, second listing returns a
different id. -/
theorem c10_empty_id_stays_unresolved_witness :
    (getDevices envEmptyId stNew).state.opts.accountId = some "" ∧
    strTruthy (getDevices envEmptyId stNew).state.opts.accountId = false ∧
    (∃ auth, Request.get accountsUrl auth ∈
      (getDevices envAcct2 (getDevices envEmptyId stNew).state).trace) :=
  c10_empty_id_stays_unresolved envEmptyId envAcct2 stNew [] (by decide) (by decide)
    (by decide) rfl (by decide) (by decide)

end Airthings

namespace Airthings

/-- On a successful `getSensors`, the stored metrics are exactly the
parse of the three rate-limit headers of the data response. -/
theorem getSensors_ok_metrics (unit : SensorUnits) (sn : Option (List String))
    (env : Env) (st : ClientState)
    (hok : (getSensors unit sn env st).result = Except.ok ()) :
    (getSensors unit sn env st).state.rateLimitMetrics =
      { limit := rateLimitHeaderValue env.dataResp "X-RateLimit-Limit"
        remaining := rateLimitHeaderValue env.dataResp "X-RateLimit-Remaining"
        reset := rateLimitHeaderValue env.dataResp "X-RateLimit-Reset" } := by
  cases hres : (ensureAccountIdConfig env st).result with
  | error e =>
    simp only [getSensors, hres] at hok
    cases hok
  | ok u =>
    cases hr2 : (handleFetch env env.dataResp
        (sensorsUrl (ensureAccountIdConfig env st).state.opts.accountId unit sn)
        (ensureAccountIdConfig env st).state).result with
    | error e =>
      simp only [getSensors, hres, hr2] at hok
      cases hok
    | ok resp =>
      obtain ⟨hdok, hxr⟩ := handleFetch_ok_inv env env.dataResp _ _ resp hr2
      subst hxr
      simp only [getSensors, hres, hr2]

end Airthings

namespace Airthings

/-- Counterexample to C2 as stated: on a successful `getSensors` whose
`X-RateLimit-Limit` header is present but unparseable (`abc`), the
stored limit is NaN (`none`), not -1. -/
theorem c2_rate_limit_counterexample :
    (getSensors SensorUnits.Metric none envBadLimit stReady).result = Except.ok () ∧
    headersGet envBadLimit.dataResp.headers "X-RateLimit-Limit" = some "abc" ∧
    (getSensors SensorUnits.Metric none envBadLimit stReady).state.rateLimitMetrics.limit
      = none ∧
    ¬ (getSensors SensorUnits.Metric none envBadLimit stReady).state.rateLimitMetrics.limit
      = some (-1) := by
  refine ⟨rfl, rfl, rfl, ?_⟩
  decide

/-- C2 (amended): after a successful `getSensors`, the snapshot is
overwritten — independently of its previous value — with exactly
`parseInt` of each of the three rate-limit headers of that call, where a
missing or empty header falls back to -1 and a present unparseable
header yields NaN; before any call the snapshot reads `(-1, -1, -1)`;
and headers limit 100 / remaining 99 / reset absent yield
`(100, 99, -1)`. -/
theorem c2_rate_limit_snapshot (unit : SensorUnits) (sn : Option (List String))
    (env : Env) (st : ClientState)
    (hok : (getSensors unit sn env st).result = Except.ok ()) :
    (getSensorsRateLimitMetrics (getSensors unit sn env st).state =
      { limit := rateLimitHeaderValue env.dataResp "X-RateLimit-Limit"
        remaining := rateLimitHeaderValue env.dataResp "X-RateLimit-Remaining"
        reset := rateLimitHeaderValue env.dataResp "X-RateLimit-Reset" }) ∧
    (∀ name, headersGet env.dataResp.headers name = none →
      rateLimitHeaderValue env.dataResp name = some (-1)) ∧
    (∀ opts, getSensorsRateLimitMetrics (mkClient opts) =
      { limit := some (-1), remaining := some (-1), reset := some (-1) }) ∧
    getSensorsRateLimitMetrics
        (getSensors SensorUnits.Imperial (some ["111", "222"]) envLimits stReady).state =
      { limit := some 100, remaining := some 99, reset := some (-1) } := by
  refine ⟨?_, ?_, ?_, ?_⟩
  · exact getSensors_ok_metrics unit sn env st hok
  · intro name h
    simp only [rateLimitHeaderValue, jsOrDefault, h]
    decide
  · intro opts
    rfl
  · decide

/-- Witness for the amended C2 at the `(100, 99, -1)` scenario. -/
theorem c2_rate_limit_snapshot_witness :
    getSensorsRateLimitMetrics
        (getSensors SensorUnits.Imperial (some ["111", "222"]) envLimits stReady).state =
      { limit := rateLimitHeaderValue envLimits.dataResp "X-RateLimit-Limit"
        remaining := rateLimitHeaderValue envLimits.dataResp "X-RateLimit-Remaining"
        reset := rateLimitHeaderValue envLimits.dataResp "X-RateLimit-Reset" } :=
  (c2_rate_limit_snapshot SensorUnits.Imperial (some ["111", "222"]) envLimits stReady
    rfl).1

end Airthings

namespace Airthings

/-- Counterexample to C5 as stated: on a fresh client, a devices call
whose data endpoint answers 500 raises the request error, yet the cached
token and the resolved account id have both changed (the token refresh
and the account resolution performed on the way to the failed fetch
persist). -/
theorem c5_state_not_unchanged_counterexample :
    (getDevices envDataFail stNew).result =
      Except.error ⟨"Request Error [500: oops]"⟩ ∧
    ¬ (getDevices envDataFail stNew).state.accessToken = stNew.accessToken ∧
    ¬ (getDevices envDataFail stNew).state.opts.accountId = stNew.opts.accountId := by
  refine ⟨rfl, ?_, ?_⟩ <;> decide

/-- A failed data fetch never touches the rate-limit metrics. -/
theorem getSensors_metrics_dataFail (unit : SensorUnits) (sn : Option (List String))
    (env : Env) (st : ClientState) (hko : env.dataResp.ok = false) :
    (getSensors unit sn env st).state.rateLimitMetrics = st.rateLimitMetrics := by
  cases hres : (ensureAccountIdConfig env st).result with
  | error e =>
    simp only [getSensors, hres]
    exact ensureAccountIdConfig_metrics env st
  | ok u =>
    cases hr2 : (handleFetch env env.dataResp
        (sensorsUrl (ensureAccountIdConfig env st).state.opts.accountId unit sn)
        (ensureAccountIdConfig env st).state).result with
    | error e =>
      simp only [getSensors, hres, hr2, handleFetch_state, refreshAccessToken_state_metrics]
      exact ensureAccountIdConfig_metrics env st
    | ok resp =>
      obtain ⟨hdok, hxr⟩ := handleFetch_ok_inv env env.dataResp _ _ resp hr2
      rw [hdok] at hko
      cases hko

/-- C5 (amended): a non-2xx response from a data endpoint (accounts,
devices, sensors) raises the request error carrying the status code and
body text; the rate-limit snapshot is never touched by a failed call;
and when the cached token is fresh and the account id already resolved
(truthy), the entire client state is unchanged.  (A stale token or an
unresolved account id may legitimately be refreshed/resolved on the way
to the failed fetch — see the counterexample.) -/
theorem c5_request_error_propagation (env : Env) (st : ClientState)
    (unit : SensorUnits) (sn : Option (List String)) (tok : AccessToken)
    (hfr : st.accessToken = some tok) (hf : tok.expires - 5 * 60 * 1000 > env.now)
    (ht : strTruthy st.opts.accountId = true) :
    (env.accountsResp.ok = false →
      (getAccounts env st).result = Except.error ⟨"Request Error [" ++
        toString env.accountsResp.status ++ ": " ++ env.accountsResp.bodyText ++ "]"⟩ ∧
      (getAccounts env st).state = st) ∧
    (env.dataResp.ok = false →
      (getDevices env st).result = Except.error ⟨"Request Error [" ++
        toString env.dataResp.status ++ ": " ++ env.dataResp.bodyText ++ "]"⟩ ∧
      (getDevices env st).state = st ∧
      (getSensors unit sn env st).result = Except.error ⟨"Request Error [" ++
        toString env.dataResp.status ++ ": " ++ env.dataResp.bodyText ++ "]"⟩ ∧
      (getSensors unit sn env st).state = st) ∧
    (∀ (env2 : Env) (st2 : ClientState), env2.dataResp.ok = false →
      (getSensors unit sn env2 st2).state.rateLimitMetrics = st2.rateLimitMetrics) := by
  have hko2 : ∀ resp : FetchResponse, resp.ok = false → ¬ resp.ok = true := by
    intro resp h
    simp [h]
  refine ⟨?_, ?_, ?_⟩
  · intro hko
    constructor
    · simp only [getAccounts,
        handleFetch_fresh env env.accountsResp accountsUrl st tok hfr hf,
        if_neg (hko2 env.accountsResp hko), requestErrorMessage]
    · simp only [getAccounts,
        handleFetch_fresh env env.accountsResp accountsUrl st tok hfr hf,
        if_neg (hko2 env.accountsResp hko)]
  · intro hko
    refine ⟨?_, ?_, ?_, ?_⟩
    · simp only [getDevices, ensureAccountIdConfig_truthy env st ht,
        handleFetch_fresh env env.dataResp (devicesUrl st.opts.accountId) st tok hfr hf,
        if_neg (hko2 env.dataResp hko), requestErrorMessage]
    · simp only [getDevices, ensureAccountIdConfig_truthy env st ht,
        handleFetch_fresh env env.dataResp (devicesUrl st.opts.accountId) st tok hfr hf,
        if_neg (hko2 env.dataResp hko)]
    · simp only [getSensors, ensureAccountIdConfig_truthy env st ht,
        handleFetch_fresh env env.dataResp (sensorsUrl st.opts.accountId unit sn) st
          tok hfr hf,
        if_neg (hko2 env.dataResp hko), requestErrorMessage]
    · simp only [getSensors, ensureAccountIdConfig_truthy env st ht,
        handleFetch_fresh env env.dataResp (sensorsUrl st.opts.accountId unit sn) st
          tok hfr hf,
        if_neg (hko2 env.dataResp hko)]
  · intro env2 st2 hko
    exact getSensors_metrics_dataFail unit sn env2 st2 hko

/-- Witness for the amended C5 at the ready state and a 500 data
response. -/
theorem c5_request_error_propagation_witness :
    (getDevices envDataFail stReady).result = Except.error ⟨"Request Error [" ++
      toString envDataFail.dataResp.status ++ ": " ++ envDataFail.dataResp.bodyText ++ "]"⟩ ∧
    (getDevices envDataFail stReady).state = stReady ∧
    (getSensors SensorUnits.Metric none envDataFail stReady).result =
      Except.error ⟨"Request Error [" ++ toString envDataFail.dataResp.status ++ ": " ++
        envDataFail.dataResp.bodyText ++ "]"⟩ ∧
    (getSensors SensorUnits.Metric none envDataFail stReady).state = stReady :=
  (c5_request_error_propagation envDataFail stReady SensorUnits.Metric none tokFresh
    rfl (by decide) (by decide)).2.1 rfl

end Airthings

namespace Airthings

theorem devicesUrl_ne_accountsUrl (a : Option String) : devicesUrl a ≠ accountsUrl := by
  intro h
  have hlen := congrArg String.length h
  simp only [devicesUrl, String.length_append] at hlen
  have h1 : ("https://consumer-api.airthings.com/v1/accounts/" : String).length =
      accountsUrl.length + 1 := rfl
  have h2 : ("/devices" : String).length = 8 := rfl
  omega

theorem sensorsUrl_ne_accountsUrl (a : Option String) (u : SensorUnits)
    (sn : Option (List String)) : sensorsUrl a u sn ≠ accountsUrl := by
  have h1 : ("https://consumer-api.airthings.com/v1/accounts/" : String).length =
      accountsUrl.length + 1 := rfl
  have hbase : accountsUrl.length <
      ("https://consumer-api.airthings.com/v1/accounts/" ++ jsInterpOptString a
        ++ "/sensors?unit=" ++ jsToLowerCase (SensorUnits.name u)).length := by
    simp only [String.length_append]
    omega
  have hlt : accountsUrl.length < (sensorsUrl a u sn).length := by
    rcases sn with _ | l
    · exact hbase
    · by_cases hl : l.length > 0
      · have e : sensorsUrl a u (some l) =
            ("https://consumer-api.airthings.com/v1/accounts/" ++ jsInterpOptString a
              ++ "/sensors?unit=" ++ jsToLowerCase (SensorUnits.name u))
              ++ "&sn=" ++ String.intercalate "," l := by
          simp only [sensorsUrl]
          rw [if_pos hl]
        rw [e]
        simp only [String.length_append] at hbase ⊢
        omega
      · have e : sensorsUrl a u (some l) =
            "https://consumer-api.airthings.com/v1/accounts/" ++ jsInterpOptString a
              ++ "/sensors?unit=" ++ jsToLowerCase (SensorUnits.name u) := by
          simp only [sensorsUrl]
          rw [if_neg hl]
        rw [e]
        exact hbase
  intro h
  rw [h] at hlt
  omega

/-- Every request issued by one `#handleFetch` call is a token exchange
or a GET of the url passed in. -/
theorem handleFetch_trace_shape (env : Env) (resp : FetchResponse) (url : String)
    (st : ClientState) :
    ∀ r ∈ (handleFetch env resp url st).trace,
      (∃ c s, r = Request.tokenExchange c s) ∨ ∃ auth, r = Request.get url auth := by
  have hmem : ∀ (auth : String) (pre : List Request),
      (∀ r ∈ pre, ∃ c s, r = Request.tokenExchange c s) →
      ∀ r ∈ pre ++ [Request.get url auth],
        (∃ c s, r = Request.tokenExchange c s) ∨ ∃ auth2, r = Request.get url auth2 := by
    intro auth pre hpre r hr
    rcases List.mem_append.mp hr with h1 | h2
    · exact Or.inl (hpre r h1)
    · simp only [List.mem_singleton] at h2
      subst h2
      exact Or.inr ⟨auth, rfl⟩
  by_cases hfresh : ∃ tok, st.accessToken = some tok ∧ tok.expires - 5 * 60 * 1000 > env.now
  · obtain ⟨tok, ha, hf⟩ := hfresh
    rw [handleFetch_fresh env resp url st tok ha hf]
    by_cases hok : resp.ok = true
    · rw [if_pos hok]
      exact fun r hr => hmem (authHeaderOf tok) [] (by simp) r (by simpa using hr)
    · rw [if_neg hok]
      exact fun r hr => hmem (authHeaderOf tok) [] (by simp) r (by simpa using hr)
  · have hneeds : needsRefresh st env.now := fun tok ha hf => hfresh ⟨tok, ha, hf⟩
    by_cases hok : env.tokenResp.ok = true
    · rw [handleFetch_exchangeOk env resp url st hneeds hok]
      have hpre : ∀ r ∈ [Request.tokenExchange st.opts.clientId st.opts.clientSecret],
          ∃ c s, r = Request.tokenExchange c s := by
        intro r hr
        simp only [List.mem_singleton] at hr
        subst hr
        exact ⟨_, _, rfl⟩
      by_cases hro : resp.ok = true
      · rw [if_pos hro]
        exact fun r hr => hmem (authHeaderOf (newToken env))
          [Request.tokenExchange st.opts.clientId st.opts.clientSecret] hpre r
          (by simpa using hr)
      · rw [if_neg hro]
        exact fun r hr => hmem (authHeaderOf (newToken env))
          [Request.tokenExchange st.opts.clientId st.opts.clientSecret] hpre r
          (by simpa using hr)
    · have hko : env.tokenResp.ok = false := by
        cases h : env.tokenResp.ok
        · rfl
        · exact absurd h hok
      rw [handleFetch_exchangeFail env resp url st hneeds hko]
      intro r hr
      simp only [List.mem_singleton] at hr
      subst hr
      exact Or.inl ⟨_, _, rfl⟩

theorem getDevices_trace_truthy (env : Env) (st : ClientState)
    (ht : strTruthy st.opts.accountId = true) :
    (getDevices env st).trace =
      (handleFetch env env.dataResp (devicesUrl st.opts.accountId) st).trace := by
  simp only [getDevices, ensureAccountIdConfig_truthy env st ht]
  split
  all_goals simp

theorem getSensors_trace_truthy (unit : SensorUnits) (sn : Option (List String))
    (env : Env) (st : ClientState) (ht : strTruthy st.opts.accountId = true) :
    (getSensors unit sn env st).trace =
      (handleFetch env env.dataResp (sensorsUrl st.opts.accountId unit sn) st).trace := by
  simp only [getSensors, ensureAccountIdConfig_truthy env st ht]
  split
  all_goals simp

end Airthings

namespace Airthings

/-- Counterexample to C6 as stated: when resolution stores the empty id
returned by the accounts list, the next account-scoped call re-invokes
the accounts endpoint and overwrites the stored id. -/
theorem c6_sticky_counterexample :
    (getDevices envEmptyId stNew).state.opts.accountId = some "" ∧
    Request.get accountsUrl "Bearer tok1" ∈
      (getDevices envAcct2 (getDevices envEmptyId stNew).state).trace ∧
    ¬ (getDevices envAcct2 (getDevices envEmptyId stNew).state).state.opts.accountId =
      (getDevices envEmptyId stNew).state.opts.accountId := by
  refine ⟨rfl, ?_, ?_⟩ <;> decide

/-- C6 (amended): once the account id holds a truthy (non-empty) value —
resolved or overridden — every public operation leaves it unchanged, and
`getDevices`/`getSensors` never issue a GET of the accounts-listing URL.
(A stored empty-string id does not count as resolved: the falsy check
re-invokes the accounts endpoint, see the counterexample.) -/
theorem c6_sticky_when_truthy (env : Env) (st : ClientState) (unit : SensorUnits)
    (sn : Option (List String)) (ht : strTruthy st.opts.accountId = true) :
    (getDevices env st).state.opts.accountId = st.opts.accountId ∧
    (getSensors unit sn env st).state.opts.accountId = st.opts.accountId ∧
    (getAccounts env st).state.opts.accountId = st.opts.accountId ∧
    (∀ r ∈ (getDevices env st).trace, isAccountsGet r = false) ∧
    (∀ r ∈ (getSensors unit sn env st).trace, isAccountsGet r = false) := by
  refine ⟨?_, ?_, ?_, ?_, ?_⟩
  · rw [getDevices_opts, ensureAccountIdConfig_truthy env st ht]
  · rw [getSensors_opts, ensureAccountIdConfig_truthy env st ht]
  · rw [getAccounts_state, handleFetch_state, refreshAccessToken_state_opts]
  · rw [getDevices_trace_truthy env st ht]
    intro r hr
    rcases handleFetch_trace_shape env env.dataResp (devicesUrl st.opts.accountId) st r hr
      with ⟨c, s, rfl⟩ | ⟨auth, rfl⟩
    · rfl
    · simp [isAccountsGet, devicesUrl_ne_accountsUrl st.opts.accountId]
  · rw [getSensors_trace_truthy unit sn env st ht]
    intro r hr
    rcases handleFetch_trace_shape env env.dataResp
        (sensorsUrl st.opts.accountId unit sn) st r hr
      with ⟨c, s, rfl⟩ | ⟨auth, rfl⟩
    · rfl
    · simp [isAccountsGet, sensorsUrl_ne_accountsUrl st.opts.accountId unit sn]

/-- Witness for the amended C6 at the ready state. -/
theorem c6_sticky_when_truthy_witness :
    (getDevices envBase stReady).state.opts.accountId = stReady.opts.accountId ∧
    (getSensors SensorUnits.Metric none envBase stReady).state.opts.accountId =
      stReady.opts.accountId ∧
    (getAccounts envBase stReady).state.opts.accountId = stReady.opts.accountId ∧
    (∀ r ∈ (getDevices envBase stReady).trace, isAccountsGet r = false) ∧
    (∀ r ∈ (getSensors SensorUnits.Metric none envBase stReady).trace,
      isAccountsGet r = false) :=
  c6_sticky_when_truthy envBase stReady SensorUnits.Metric none (by decide)

end Airthings

namespace Airthings

/-- Every error coming out of one `#handleFetch` call is the token
exchange failure or the failure of the passed response. -/
theorem handleFetch_error_inv (env : Env) (resp : FetchResponse) (url : String)
    (st : ClientState) (e : AirthingsError)
    (h : (handleFetch env resp url st).result = Except.error e) :
    e = ⟨requestErrorMessage env.tokenResp⟩ ∨ e = ⟨requestErrorMessage resp⟩ := by
  by_cases hfresh : ∃ tok, st.accessToken = some tok ∧ tok.expires - 5 * 60 * 1000 > env.now
  · obtain ⟨tok, ha, hf⟩ := hfresh
    rw [handleFetch_fresh env resp url st tok ha hf] at h
    by_cases hok : resp.ok = true
    · rw [if_pos hok] at h
      cases h
    · rw [if_neg hok] at h
      simp only [Except.error.injEq] at h
      exact Or.inr h.symm
  · have hneeds : needsRefresh st env.now := fun tok ha hf => hfresh ⟨tok, ha, hf⟩
    by_cases hok : env.tokenResp.ok = true
    · rw [handleFetch_exchangeOk env resp url st hneeds hok] at h
      by_cases hro : resp.ok = true
      · rw [if_pos hro] at h
        cases h
      · rw [if_neg hro] at h
        simp only [Except.error.injEq] at h
        exact Or.inr h.symm
    · have hko : env.tokenResp.ok = false := by
        cases hv : env.tokenResp.ok
        · rfl
        · exact absurd hv hok
      rw [handleFetch_exchangeFail env resp url st hneeds hko] at h
      simp only [Except.error.injEq] at h
      exact Or.inl h.symm

theorem getAccounts_error_inv (env : Env) (st : ClientState) (e : AirthingsError)
    (h : (getAccounts env st).result = Except.error e) :
    e = ⟨requestErrorMessage env.tokenResp⟩ ∨ e = ⟨requestErrorMessage env.accountsResp⟩ := by
  apply handleFetch_error_inv env env.accountsResp accountsUrl st e
  cases hr : (handleFetch env env.accountsResp accountsUrl st).result with
  | error e2 =>
    simp only [getAccounts, hr, Except.error.injEq] at h
    all_goals rw [h]
  | ok x =>
    simp only [getAccounts, hr] at h
    all_goals cases h

theorem ensureAccountIdConfig_error_inv (env : Env) (st : ClientState) (e : AirthingsError)
    (h : (ensureAccountIdConfig env st).result = Except.error e) :
    e = ⟨"No Account ID"⟩ ∨ e = ⟨requestErrorMessage env.tokenResp⟩ ∨
      e = ⟨requestErrorMessage env.accountsResp⟩ := by
  by_cases ht : strTruthy st.opts.accountId = true
  · rw [ensureAccountIdConfig_truthy env st ht] at h
    cases h
  · have hnt : strTruthy st.opts.accountId = false := by
      cases hv : strTruthy st.opts.accountId
      · rfl
      · exact absurd hv ht
    cases hr : (getAccounts env st).result with
    | error e2 =>
      simp only [ensureAccountIdConfig, hnt, Bool.false_eq_true, if_false, hr,
        Except.error.injEq] at h
      subst h
      exact Or.inr (getAccounts_error_inv env st e2 hr)
    | ok accounts =>
      cases accounts with
      | nil =>
        simp only [ensureAccountIdConfig, hnt, Bool.false_eq_true, if_false, hr,
          Except.error.injEq] at h
        exact Or.inl h.symm
      | cons acc rest =>
        simp only [ensureAccountIdConfig, hnt, Bool.false_eq_true, if_false, hr] at h
        all_goals cases h

theorem getDevices_error_inv (env : Env) (st : ClientState) (e : AirthingsError)
    (h : (getDevices env st).result = Except.error e) :
    e = ⟨"No Account ID"⟩ ∨ e = ⟨requestErrorMessage env.tokenResp⟩ ∨
      e = ⟨requestErrorMessage env.accountsResp⟩ ∨
      e = ⟨requestErrorMessage env.dataResp⟩ := by
  cases hres : (ensureAccountIdConfig env st).result with
  | error e2 =>
    simp only [getDevices, hres, Except.error.injEq] at h
    subst h
    rcases ensureAccountIdConfig_error_inv env st e2 hres with h1 | h1 | h1
    · exact Or.inl h1
    · exact Or.inr (Or.inl h1)
    · exact Or.inr (Or.inr (Or.inl h1))
  | ok u =>
    cases hr2 : (handleFetch env env.dataResp
        (devicesUrl (ensureAccountIdConfig env st).state.opts.accountId)
        (ensureAccountIdConfig env st).state).result with
    | error e2 =>
      simp only [getDevices, hres, hr2, Except.error.injEq] at h
      subst h
      rcases handleFetch_error_inv env env.dataResp _ _ e2 hr2 with h1 | h1
      · exact Or.inr (Or.inl h1)
      · exact Or.inr (Or.inr (Or.inr h1))
    | ok x =>
      simp only [getDevices, hres, hr2] at h
      all_goals cases h

theorem getSensors_error_inv (unit : SensorUnits) (sn : Option (List String))
    (env : Env) (st : ClientState) (e : AirthingsError)
    (h : (getSensors unit sn env st).result = Except.error e) :
    e = ⟨"No Account ID"⟩ ∨ e = ⟨requestErrorMessage env.tokenResp⟩ ∨
      e = ⟨requestErrorMessage env.accountsResp⟩ ∨
      e = ⟨requestErrorMessage env.dataResp⟩ := by
  cases hres : (ensureAccountIdConfig env st).result with
  | error e2 =>
    simp only [getSensors, hres, Except.error.injEq] at h
    subst h
    rcases ensureAccountIdConfig_error_inv env st e2 hres with h1 | h1 | h1
    · exact Or.inl h1
    · exact Or.inr (Or.inl h1)
    · exact Or.inr (Or.inr (Or.inl h1))
  | ok u =>
    cases hr2 : (handleFetch env env.dataResp
        (sensorsUrl (ensureAccountIdConfig env st).state.opts.accountId unit sn)
        (ensureAccountIdConfig env st).state).result with
    | error e2 =>
      simp only [getSensors, hres, hr2, Except.error.injEq] at h
      subst h
      rcases handleFetch_error_inv env env.dataResp _ _ e2 hr2 with h1 | h1
      · exact Or.inr (Or.inl h1)
      · exact Or.inr (Or.inr (Or.inr h1))
    | ok x =>
      simp only [getSensors, hres, hr2] at h
      all_goals cases h

end Airthings

namespace Airthings

/-- Counterexample to C8 as stated: a failed token exchange (no GET ever
issued, one exchange in the trace) and a non-2xx accounts response under
a fresh token (no exchange, one GET) raise the very same error value —
the single `AirthingsError` class with message `Request Error [401: x]` —
so the caller cannot determine which class of failure occurred. -/
theorem c8_error_classes_counterexample :
    (getAccounts envTokenFail401 stNew).result =
      Except.error ⟨"Request Error [401: x]"⟩ ∧
    (getAccounts envAccountsFail stReady).result =
      Except.error ⟨"Request Error [401: x]"⟩ ∧
    exchangeCount (getAccounts envTokenFail401 stNew).trace = 1 ∧
    exchangeCount (getAccounts envAccountsFail stReady).trace = 0 := by
  refine ⟨rfl, rfl, ?_, ?_⟩ <;> decide

/-- C8 (amended): the client raises the single error class
`AirthingsError`; every raised error carries one of the messages
`No Account ID` (unresolvable account), `Request Error [status: body]`
of the token response (failed exchange, the path the spec calls
AuthenticationError), or `Request Error [status: body]` of the failed
data response — the latter two share one format, so a failed exchange
and a failed data call with equal status and body are not
distinguishable by the caller. -/
theorem c8_error_taxonomy (env : Env) (st : ClientState) (unit : SensorUnits)
    (sn : Option (List String)) (e : AirthingsError) :
    ((getAccounts env st).result = Except.error e →
      e = ⟨requestErrorMessage env.tokenResp⟩ ∨
        e = ⟨requestErrorMessage env.accountsResp⟩) ∧
    ((getDevices env st).result = Except.error e →
      e = ⟨"No Account ID"⟩ ∨ e = ⟨requestErrorMessage env.tokenResp⟩ ∨
        e = ⟨requestErrorMessage env.accountsResp⟩ ∨
        e = ⟨requestErrorMessage env.dataResp⟩) ∧
    ((getSensors unit sn env st).result = Except.error e →
      e = ⟨"No Account ID"⟩ ∨ e = ⟨requestErrorMessage env.tokenResp⟩ ∨
        e = ⟨requestErrorMessage env.accountsResp⟩ ∨
        e = ⟨requestErrorMessage env.dataResp⟩) :=
  ⟨getAccounts_error_inv env st e,
   getDevices_error_inv env st e,
   getSensors_error_inv unit sn env st e⟩

/-- Witness for the amended C8: the 500 from the devices endpoint is
classified among the possible messages. -/
theorem c8_error_taxonomy_witness :
    (⟨"Request Error [500: oops]"⟩ : AirthingsError) = ⟨"No Account ID"⟩ ∨
    (⟨"Request Error [500: oops]"⟩ : AirthingsError) =
      ⟨requestErrorMessage envDataFail.tokenResp⟩ ∨
    (⟨"Request Error [500: oops]"⟩ : AirthingsError) =
      ⟨requestErrorMessage envDataFail.accountsResp⟩ ∨
    (⟨"Request Error [500: oops]"⟩ : AirthingsError) =
      ⟨requestErrorMessage envDataFail.dataResp⟩ :=
  (c8_error_taxonomy envDataFail stReady SensorUnits.Metric none
    ⟨"Request Error [500: oops]"⟩).2.1 rfl

end Airthings
